import Mathlib

/-!
Shallow embedding of the pure-Python core of the jameskmurphy/nes NES
emulator (files under nes/pycore and nes/rom.py), together with theorems
settling the frozen claims about its specification.

Conventions of the embedding:
* Python `bytearray`s are modelled as total functions `ℕ → ℕ` holding byte
  values, updated pointwise with `upd`; the length of each array appears as
  an explicit field where the source indexes modulo the length.
* Machine integers are `ℕ`, with the masks (`&&& 0xFF` and friends) written
  exactly where the source writes them.
* A Python method that mutates an object is a Lean function from the state
  record to a new state record; a method that also returns a value returns
  a pair.  Reads that can have side effects (PPU register reads, controller
  reads) thread the state.
* Operations that can raise in Python return `Option`: the VRAM address
  decoder indexes the 4-entry `nametable_mirror_pattern` tuple, which
  raises `IndexError` for PPU addresses in `[0x3000, 0x3F00)`; a `none`
  result models the raised exception, which in the source propagates up
  through every caller (PPU register access, CPU memory map, CPU
  instruction) and aborts the run.  State changes made before the raise
  are unobservable, because the program stops.
-/

namespace NesEmu

/-- Pointwise update of a `bytearray` modelled as a function, the meaning of
the Python statement `arr[i] = v`. -/
def upd (f : ℕ → ℕ) (i v : ℕ) : ℕ → ℕ := fun j => if j = i then v else f j

/-- Embeds `bit_high` from nes/pycore/bitwise.py: `value & (1 << bit) > 0`. -/
def bitHigh (value bit : ℕ) : Bool := decide (0 < value &&& (1 <<< bit))

/-- Embeds `bit_low` from nes/pycore/bitwise.py: `value & (1 << bit) == 0`. -/
def bitLow (value bit : ℕ) : Bool := decide (value &&& (1 <<< bit) = 0)

/-- Embeds `lower_nibble` from nes/pycore/bitwise.py. -/
def lowerNibble (value : ℕ) : ℕ := value &&& 0x0F

/-- Embeds `upper_nibble` from nes/pycore/bitwise.py. -/
def upperNibble (value : ℕ) : ℕ := (value &&& 0xF0) >>> 4

/-! ## Cartridge (mapper 0), from nes/pycore/carts.py `NESCart0` -/

/-- State of `NESCart0`: 2/4/8 kB RAM, 16/32 kB PRG ROM, 8 kB CHR memory,
the PRG load address and the nametable mirror pattern.  The `...Len` fields
record the Python `len(...)` of each bytearray. -/
structure NESCart0 where
  ram : ℕ → ℕ
  ramLen : ℕ
  prgRom : ℕ → ℕ
  prgRomLen : ℕ
  chrMem : ℕ → ℕ
  chrMemLen : ℕ
  prgStartAddr : ℕ
  nametableMirrorPattern : List ℕ

/-- Embeds `NESCart0.read`.  `PRG_ROM_START = 0x8000`; below it the access
goes to the cartridge RAM, at or above it to PRG ROM.  (The subtraction is
Python integer subtraction; for the addresses the memory map routes here,
`address ≥ 0x8000 ≥ prg_start_addr`, so `ℕ` subtraction agrees.) -/
def NESCart0.read (c : NESCart0) (address : ℕ) : ℕ :=
  if address < 0x8000 then c.ram (address % c.ramLen)
  else c.prgRom ((address - c.prgStartAddr) % c.prgRomLen)

/-- Embeds `NESCart0.write`.  Note that the `else` branch of the source,
despite the comment that a ROM write should have no effect, assigns into
`prg_rom` (after printing a warning). -/
def NESCart0.write (c : NESCart0) (address value : ℕ) : NESCart0 :=
  if address < 0x8000 then
    { c with ram := upd c.ram (address % c.ramLen) value }
  else
    { c with prgRom := upd c.prgRom ((address - c.prgStartAddr) % c.prgRomLen) value }

/-! ## PPU video memory, from nes/pycore/memory.py `NESVRAM` -/

/-- Which backing array a PPU address decodes to, mirroring the first
component of the pair returned by `NESVRAM.decode_address` (the pattern
table data lives in `cart.chr_mem`). -/
inductive VramTarget where
  | chrMem
  | nametables
  | paletteRam
  deriving DecidableEq

/-- State of `NESVRAM`: the cartridge it reads CHR data through, the 2 kB
nametable RAM, the 32-byte palette RAM and the nametable mirror pattern
(the 4-entry tuple) copied from the cartridge at construction. -/
structure NESVRAM where
  cart : NESCart0
  nametables : ℕ → ℕ
  paletteRam : ℕ → ℕ
  nametableMirrorPattern : List ℕ

/-- Embeds `NESVRAM.decode_address`.  `NAMETABLE_START = 0x2000`,
`PALETTE_START = 0x3F00`, `NAMETABLE_LENGTH_BYTES = 1024`,
`PALETTE_SIZE_BYTES = 32`; `$3F10/$3F14/$3F18/$3F1C` fold to
`$3F00/$3F04/$3F08/$3F0C`.  The nametable branch indexes the 4-entry
`nametable_mirror_pattern` tuple with `page = (address - 0x2000) / 1024`;
for addresses in `[0x3000, 0x3F00)` the page is 4–7 and the Python
indexing raises `IndexError`, modelled by `List.get?` returning
`none`. -/
def NESVRAM.decodeAddress (v : NESVRAM) (address : ℕ) : Option (VramTarget × ℕ) :=
  if address < 0x2000 then
    some (.chrMem, address % v.cart.chrMemLen)
  else if address < 0x3F00 then
    match v.nametableMirrorPattern.get? ((address - 0x2000) / 1024) with
    | none => none
    | some truePage => some (.nametables, truePage * 1024 + (address - 0x2000) % 1024)
  else
    let address :=
      if address = 0x3F10 ∨ address = 0x3F14 ∨ address = 0x3F18 ∨ address = 0x3F1C
      then address - 0x10 else address
    some (.paletteRam, address % 32)

/-- Embeds `NESVRAM.read`: decode the address, then index the decoded
array; `none` is the propagated decode `IndexError`. -/
def NESVRAM.read (v : NESVRAM) (address : ℕ) : Option ℕ :=
  match v.decodeAddress address with
  | none => none
  | some (.chrMem, i) => some (v.cart.chrMem i)
  | some (.nametables, i) => some (v.nametables i)
  | some (.paletteRam, i) => some (v.paletteRam i)

/-- Embeds `NESVRAM.write`: decode the address, then assign into the
decoded array; `none` is the propagated decode `IndexError`. -/
def NESVRAM.write (v : NESVRAM) (address value : ℕ) : Option NESVRAM :=
  match v.decodeAddress address with
  | none => none
  | some (.chrMem, i) =>
    some { v with cart := { v.cart with chrMem := upd v.cart.chrMem i value } }
  | some (.nametables, i) => some { v with nametables := upd v.nametables i value }
  | some (.paletteRam, i) => some { v with paletteRam := upd v.paletteRam i value }

/-! ## PPU registers, from nes/pycore/ppu.py `NESPPU`

Only the state read or written by the register interface (`read_register`,
`write_register`, `_increment_vram_address`, `write_oam`) and the cycle
counter are modelled; the rendering-only latches (background shift
registers, sprite latches, the palette memoization cache and the screen
handle) are not, since no register-level operation reads them back. -/

/-- Register-visible state of `NESPPU`.  `ppuScrollX`/`ppuScrollY` are the
two cells of the `ppu_scroll` bytearray (`PPU_SCROLL_X = 0`,
`PPU_SCROLL_Y = 1`). -/
structure NESPPU where
  ppuCtrl : ℕ
  ppuMask : ℕ
  oamAddr : ℕ
  ppuScrollX : ℕ
  ppuScrollY : ℕ
  ppuAddr : ℕ
  ppuByteLatch : ℕ
  ppuDataBuffer : ℕ
  ioLatch : ℕ
  inVblank : Bool
  spriteZeroHit : Bool
  spriteOverflow : Bool
  cyclesSinceReset : ℕ
  oam : ℕ → ℕ
  vram : NESVRAM

/-- Embeds the `ppu_status` property: `VBLANK_MASK * in_vblank +
SPRITE0_HIT_MASK * sprite_zero_hit + SPRITE_OVERFLOW_MASK *
sprite_overflow`. -/
def NESPPU.ppuStatus (p : NESPPU) : ℕ :=
  (if p.inVblank then 0b10000000 else 0)
    + (if p.spriteZeroHit then 0b01000000 else 0)
    + (if p.spriteOverflow then 0b00100000 else 0)

/-- Embeds `NESPPU._increment_vram_address`: add 1, or 32 when
`VRAM_INCREMENT_MASK = 0b100` is set in `ppu_ctrl`. -/
def NESPPU.incrementVramAddress (p : NESPPU) : NESPPU :=
  { p with ppuAddr := p.ppuAddr + (if p.ppuCtrl &&& 0b00000100 = 0 then 1 else 32) }

/-- Embeds `NESPPU.read_register`.  Registers 0, 1, 3, 5 and 6 are
write-only and return the I/O latch.  Reading `PPU_STATUS = 2` clears the
shared scroll/address byte latch, returns the status bits plus the latch
masked with the literal `0x00011111`, and clears `in_vblank`.  Reading
`OAM_DATA = 4` returns the OAM byte at `oam_addr`.  Reading
`PPU_DATA = 7` is buffered below the palette region; its VRAM reads can
raise `IndexError` (see `NESVRAM.decodeAddress`), which aborts the
operation — `none` — before any state of this record is changed.
(Indices above 7 do not occur: the memory map always passes
`address % 8`.) -/
def NESPPU.readRegister (p : NESPPU) (register : ℕ) : Option (ℕ × NESPPU) :=
  if register = 2 then
    let p := { p with ppuByteLatch := 0 }
    let v := p.ppuStatus + (0x00011111 &&& p.ioLatch)
    some (v, { p with inVblank := false, ioLatch := v })
  else if register = 4 then
    let v := p.oam p.oamAddr
    some (v, { p with ioLatch := v })
  else if register = 7 then
    if p.ppuAddr < 0x3F00 then
      match p.vram.read p.ppuAddr with
      | none => none
      | some b =>
        let v := p.ppuDataBuffer
        let p := { p with ppuDataBuffer := b }
        let p := p.incrementVramAddress
        some (v, { p with ioLatch := p.ppuDataBuffer })
    else
      match p.vram.read p.ppuAddr with
      | none => none
      | some v =>
        match p.vram.read (p.ppuAddr - 0x1000) with
        | none => none
        | some b =>
          let p := { p with ppuDataBuffer := b }
          let p := p.incrementVramAddress
          some (v, { p with ioLatch := p.ppuDataBuffer })
  else
    some (p.ioLatch, p)

/-- Embeds `NESPPU.write_register`.  The returned `Bool` records whether
the write called `_trigger_nmi` (which raises NMI on the interrupt
listener).  The source first fills the I/O latch with `value & 0xFF` and
masks `value` to a byte; writes to `PPU_CTRL = 0` return immediately while
`cycles_since_reset < 29658`.  A `PPU_DATA = 7` write can raise
`IndexError` inside `vram.write` (see `NESVRAM.decodeAddress`), aborting
the operation: `none`, with the preceding I/O-latch fill unobservable
because the exception stops the program.  (The palette-cache invalidation
performed on palette writes through `PPU_DATA = 7` touches only the
rendering memoization cache, which is not modelled.) -/
def NESPPU.writeRegister (p : NESPPU) (register value : ℕ) : Option (NESPPU × Bool) :=
  let p := { p with ioLatch := value &&& 0xFF }
  let value := value &&& 0xFF
  if register = 0 then
    if p.cyclesSinceReset < 29658 then some (p, false)
    else
      let triggerNmi := p.inVblank
        && decide (0 < value &&& 0b10000000)
        && decide (p.ppuCtrl &&& 0b10000000 = 0)
      some ({ p with ppuCtrl := value }, triggerNmi)
  else if register = 1 then
    some ({ p with ppuMask := value }, false)
  else if register = 2 then
    some (p, false)
  else if register = 3 then
    some ({ p with oamAddr := value }, false)
  else if register = 4 then
    some ({ p with oam := upd p.oam p.oamAddr value,
                   oamAddr := (p.oamAddr + 1) &&& 0xFF }, false)
  else if register = 5 then
    let p := if p.ppuByteLatch = 0 then { p with ppuScrollX := value }
             else { p with ppuScrollY := value }
    some ({ p with ppuByteLatch := 1 - p.ppuByteLatch }, false)
  else if register = 6 then
    if p.ppuByteLatch = 0 then
      some ({ p with
          ppuAddr := (p.ppuAddr &&& 0x00FF) + (value <<< 8),
          ppuCtrl := (p.ppuCtrl &&& 0b11111100) + ((value &&& 0b00001100) >>> 2),
          ppuScrollY := (p.ppuScrollY &&& 0b00111100)
            + ((value &&& 0b00000011) <<< 6) + ((value &&& 0b00110000) >>> 4),
          ppuByteLatch := 1 - p.ppuByteLatch }, false)
    else
      some ({ p with
          ppuAddr := (p.ppuAddr &&& 0xFF00) + value,
          ppuScrollX := (p.ppuScrollX &&& 0b00000111) + ((value &&& 0b00011111) <<< 3),
          ppuScrollY := (p.ppuScrollY &&& 0b11000111) + ((value &&& 0b11100000) >>> 2),
          ppuByteLatch := 1 - p.ppuByteLatch }, false)
  else if register = 7 then
    match p.vram.write p.ppuAddr value with
    | none => none
    | some vr => some (({ p with vram := vr }).incrementVramAddress, false)
  else
    some (p, false)

/-- Embeds `NESPPU.write_oam`: copy 256 bytes of `data` into the OAM. -/
def NESPPU.writeOam (p : NESPPU) (data : ℕ → ℕ) : NESPPU :=
  { p with oam := fun i => if i < 256 then data i else p.oam i }

/-! ## Controller, from nes/peripherals.py `ControllerBase` -/

/-- State of `ControllerBase`: button states, the serial read position, the
strobe line (stored as the written value, as in the source) and the
active flag. -/
structure Controller where
  isPressed : ℕ → ℕ
  currentBit : ℕ
  strobe : ℕ
  active : Bool

/-- Embeds `ControllerBase.set_strobe`: store the value; a truthy value
also resets the serial read position. -/
def Controller.setStrobe (c : Controller) (value : ℕ) : Controller :=
  let c := { c with strobe := value }
  if value ≠ 0 then { c with currentBit := 0 } else c

/-- Embeds `ControllerBase.read_bit`: inactive pads read 0; otherwise the
first 8 reads emit the button bits in order and later reads return 1, and
the position saturates at `NUM_BUTTONS = 8`. -/
def Controller.readBit (c : Controller) : ℕ × Controller :=
  if ¬c.active then (0, c)
  else
    let v := if c.currentBit < 8 then c.isPressed c.currentBit else 1
    (v, { c with currentBit := min (c.currentBit + 1) 8 })

/-! ## Interrupt listener, from nes/pycore/system.py `InterruptListener` -/

/-- State of `InterruptListener`: the latched NMI and IRQ lines and the
one-shot OAM-DMA pause flag. -/
structure InterruptListener where
  nmi : Bool
  irq : Bool
  oamDmaPause : Bool

/-- Embeds `InterruptListener.any_active`. -/
def InterruptListener.anyActive (il : InterruptListener) : Bool :=
  il.nmi || il.irq || il.oamDmaPause

/-! ## CPU memory map, from nes/pycore/memory.py `NESMappedRAM` -/

/-- State of `NESMappedRAM`: the 2 kB internal RAM plus the devices the
memory map dispatches to (PPU, cartridge, the two controllers and the
interrupt listener; the APU slot of the source is `None` in the NES
constructor and is never dereferenced). -/
structure NESMappedRAM where
  ram : ℕ → ℕ
  ppu : NESPPU
  cart : NESCart0
  controller1 : Controller
  controller2 : Controller
  interruptListener : InterruptListener

/-- Embeds `NESMappedRAM.read`.  Constants from the source: `RAM_END =
0x0800`, `PPU_END = 0x4000`, `APU_END = 0x4018`, `APU_UNUSED_END = 0x4020`,
`OAM_DMA = 0x4014`, `CONTROLLER1 = 0x4016`, `CONTROLLER2 = 0x4017`,
`RAM_SIZE = 0x800`, `NUM_PPU_REGISTERS = 8`.  Reads of PPU registers and
controller ports have side effects, so the updated state is returned; a
PPU-register read that raises `IndexError` propagates (`none`). -/
def NESMappedRAM.read (s : NESMappedRAM) (address : ℕ) : Option (ℕ × NESMappedRAM) :=
  if address < 0x0800 then
    some (s.ram (address % 0x800), s)
  else if address < 0x4000 then
    match s.ppu.readRegister (address % 8) with
    | none => none
    | some (v, ppu) => some (v, { s with ppu := ppu })
  else if address < 0x4018 then
    if address = 0x4014 then some (0, s)
    else if address = 0x4016 then
      let (b, c1) := s.controller1.readBit
      some ((b &&& 0b00011111) + (0x40 &&& 0b11100000), { s with controller1 := c1 })
    else if address = 0x4017 then
      let (b, c2) := s.controller2.readBit
      some ((b &&& 0b00011111) + (0x40 &&& 0b11100000), { s with controller2 := c2 })
    else some (0, s)
  else if address < 0x4020 then
    some (0, s)
  else
    some (s.cart.read address, s)

/-- The value delivered by a CPU read, discarding the threaded state. -/
def NESMappedRAM.readValue (s : NESMappedRAM) (address : ℕ) : Option ℕ :=
  (s.read address).map Prod.fst

/-- Embeds `MemoryBase.read_block`: `n` single reads at `address`,
`address + 1`, ..., threading the state in increasing address order.  The
returned function holds the bytes at indices below `n` (a fresh zeroed
bytearray elsewhere, as in the source); a failing read propagates. -/
def NESMappedRAM.readBlock (s : NESMappedRAM) (address : ℕ) :
    ℕ → Option ((ℕ → ℕ) × NESMappedRAM)
  | 0 => some (fun _ => 0, s)
  | n + 1 =>
    match s.readBlock address n with
    | none => none
    | some (f, s1) =>
      match s1.read (address + n) with
      | none => none
      | some (v, s2) => some (fun i => if i = n then v else f i, s2)

/-- Embeds `NESMappedRAM.run_oam_dma`: build a 256-byte block in two slice
assignments — `data_block[oam_addr:256] = read_block(page << 8,
256 - oam_addr)` then `data_block[0:oam_addr] = read_block(page << 8,
oam_addr)` — copy it into the PPU OAM with `write_oam`, and raise the
OAM-DMA pause on the interrupt listener.  (`oam_addr` is read from the PPU
at entry; none of the reads performed here can change it.) -/
def NESMappedRAM.runOamDma (s : NESMappedRAM) (page : ℕ) : Option NESMappedRAM :=
  let a := s.ppu.oamAddr
  match s.readBlock (page <<< 8) (256 - a) with
  | none => none
  | some (tailBlock, s1) =>
    match s1.readBlock (page <<< 8) a with
    | none => none
    | some (headBlock, s2) =>
      let dataBlock : ℕ → ℕ := fun j => if j < a then headBlock j else tailBlock (j - a)
      some { s2 with
              ppu := s2.ppu.writeOam dataBlock,
              interruptListener := { s2.interruptListener with oamDmaPause := true } }

/-- Embeds `NESMappedRAM.write`.  A write into `[0x2000, 0x4000)` goes to
PPU register `address % 8` (raising NMI on the interrupt listener when the
PPU write triggers one); `0x4014` runs OAM DMA; `0x4016` strobes both
controllers; other APU addresses are ignored; cartridge space goes to the
cartridge.  An `IndexError` raised inside a PPU-register write
propagates (`none`). -/
def NESMappedRAM.write (s : NESMappedRAM) (address value : ℕ) : Option NESMappedRAM :=
  if address < 0x0800 then
    some { s with ram := upd s.ram (address % 0x800) value }
  else if address < 0x4000 then
    match s.ppu.writeRegister (address % 8) value with
    | none => none
    | some (ppu, nmi) =>
      some { s with
              ppu := ppu,
              interruptListener :=
                if nmi then { s.interruptListener with nmi := true }
                else s.interruptListener }
  else if address < 0x4018 then
    if address = 0x4014 then s.runOamDma value
    else if address = 0x4016 then
      some { s with
              controller1 := s.controller1.setStrobe value,
              controller2 := s.controller2.setStrobe value }
    else some s
  else if address < 0x4020 then some s
  else
    some { s with cart := s.cart.write address value }

/-! ## CPU, from nes/pycore/mos6502.py `MOS6502`

The parts of the CPU touched by the claims are embedded: the register and
flag state, the stack push, the status byte, the interrupt entry routine
`_interrupt` with `trigger_irq`, and the `_adc` instruction.  The NES
constructs the CPU with `support_BCD=False`, so the decimal branch of
`_adc` is dead code and the binary branch is the embedded one. -/

/-- Register and flag state of `MOS6502`, together with the memory it is
connected to.  Flag fields carry a `flag` prefix (`flagI` is the interrupt
disable bit `I`, and so on). -/
structure MOS6502 where
  A : ℕ
  X : ℕ
  Y : ℕ
  PC : ℕ
  SP : ℕ
  flagN : Bool
  flagV : Bool
  flagD : Bool
  flagI : Bool
  flagZ : Bool
  flagC : Bool
  cyclesSinceReset : ℕ
  memory : NESMappedRAM

/-- Embeds the static helper `_neg`: bit 7 of a value. -/
def negBit (v : ℕ) : Bool := decide (0 < v &&& 0b10000000)

/-- Embeds `MOS6502._status_to_byte`: N, V, the always-set unused bit, the
B flag argument, D, I, Z, C packed into a byte. -/
def MOS6502.statusToByte (c : MOS6502) (bFlag : Bool) : ℕ :=
  ((if c.flagN then 0b10000000 else 0)
    + (if c.flagV then 0b01000000 else 0)
    + 0b00100000
    + (if bFlag then 0b00010000 else 0)
    + (if c.flagD then 0b00001000 else 0)
    + (if c.flagI then 0b00000100 else 0)
    + (if c.flagZ then 0b00000010 else 0)
    + (if c.flagC then 0b00000001 else 0)) &&& 0xFF

/-- Embeds `MOS6502.push_stack`: write at `STACK_PAGE + SP` (page 1) and
decrement SP with wraparound (`(SP - 1) & 0xFF` on `0 ≤ SP < 256`); the
memory write is total for stack addresses but its failure propagates. -/
def MOS6502.pushStack (c : MOS6502) (v : ℕ) : Option MOS6502 :=
  match c.memory.write (0x0100 + c.SP) v with
  | none => none
  | some mem => some { c with memory := mem, SP := if c.SP = 0 then 0xFF else c.SP - 1 }

/-- Embeds `MOS6502._read_word`: two single-byte reads, with the page-wrap
variant reading the high byte from the start of the page. -/
def MOS6502.readWord (c : MOS6502) (addr : ℕ) (wrapAtPage : Bool) : Option (ℕ × MOS6502) :=
  if wrapAtPage ∧ addr &&& 0xFF = 0xFF then do
    let (lo, m1) ← c.memory.read addr
    let (hi, m2) ← m1.read (addr &&& 0xFF00)
    pure (lo + (hi <<< 8), { c with memory := m2 })
  else do
    let (lo, m1) ← c.memory.read addr
    let (hi, m2) ← m1.read (addr + 1)
    pure (lo + (hi <<< 8), { c with memory := m2 })

/-- Embeds `MOS6502._interrupt`: push `PC` (`PC + 1` for BRK) high byte
then low byte, push the status byte (B flag set only for BRK), load `PC`
from the vector, and set the interrupt disable flag unless this is BRK. -/
def MOS6502.interruptRoutine (c : MOS6502) (interruptVector : ℕ) (isBrk : Bool) :
    Option MOS6502 := do
  let v := c.PC + (if isBrk then 1 else 0)
  let c ← c.pushStack ((v &&& 0xFF00) >>> 8)
  let c ← c.pushStack (v &&& 0x00FF)
  let sr := c.statusToByte isBrk
  let c ← c.pushStack sr
  let (addr, c) ← c.readWord interruptVector false
  let c := { c with PC := addr }
  if ¬isBrk then pure { c with flagI := true } else pure c

/-- Embeds `MOS6502.trigger_irq`: when the interrupt disable flag is
clear, run the interrupt routine through the IRQ/BRK vector `$FFFE`, add
`INTERRUPT_REQUEST_CYCLES = 7` cycles and return 7; otherwise return 0 and
leave the state untouched. -/
def MOS6502.triggerIrq (c : MOS6502) : Option (ℕ × MOS6502) :=
  if ¬c.flagI then
    (c.interruptRoutine 0xFFFE false).map fun c =>
      (7, { c with cyclesSinceReset := c.cyclesSinceReset + 7 })
  else
    some (0, c)

/-- Embeds `MOS6502._adc` for the NES configuration
(`support_BCD=False`, so the binary branch): fetch the operand (the
argument itself in immediate mode, a memory read otherwise — the read can
raise, and then the exception propagates), add it and the carry to the
accumulator, and set C, V, Z, N and the accumulator from the 9-bit
result. -/
def MOS6502.adc (c : MOS6502) (arg : ℕ) (immediate : Bool) : Option MOS6502 :=
  match (if immediate then some (arg, c.memory) else c.memory.read arg) with
  | none => none
  | some (v, mem) =>
    let c := { c with memory := mem }
    let result := c.A + v + (if c.flagC then 1 else 0)
    some { c with
            flagC := decide (255 < result),
            flagV := (negBit c.A == negBit v) && (negBit c.A != negBit result),
            flagZ := decide (result &&& 0xFF = 0),
            flagN := decide (0 < result &&& 0b10000000),
            A := result &&& 0xFF }

/-! ## System runner dispatch, from nes/pycore/system.py `NES.step` -/

/-- Number of PPU cycles run per CPU cycle by the runner
(`NES.PPU_CYCLES_PER_CPU_CYCLE = 3`); each `NES.step` advances the PPU by
`cpu_cycles * 3`. -/
def ppuCyclesPerCpuCycle : ℕ := 3

/-- What one iteration of the runner loop does before advancing the PPU:
the possible branches of the dispatch at the top of `NES.step` (and of the
identical dispatch inlined in `NES.run`).  `serviceIrq` is the action the
specification prescribes for a pending IRQ; the source has no branch that
produces it. -/
inductive StepAction where
  | serviceNmi
  | serviceIrq
  | dmaStall
  | runInstr
  | notImplementedError
  deriving DecidableEq

/-- Embeds the dispatch of `NES.step`: when any interrupt is active, an
NMI is serviced first; an active IRQ raises
`NotImplementedError("IRQ is not implemented")` (the `StepAction` value
`notImplementedError`); an OAM-DMA pause stalls the CPU; otherwise the
next instruction runs.  The CPU flags are not consulted. -/
def stepAction (il : InterruptListener) : StepAction :=
  if il.anyActive then
    if il.nmi then .serviceNmi
    else if il.irq then .notImplementedError
    else .dmaStall
  else .runInstr

/-- Modelled from the spec: the runner loop of section 4.7, which services
a pending IRQ through the CPU when the interrupt disable flag is clear.
Used only to compare the source dispatch against the specified one. -/
def specStepAction (il : InterruptListener) (cpuFlagI : Bool) : StepAction :=
  if il.nmi then .serviceNmi
  else if il.irq && !cpuFlagI then .serviceIrq
  else if il.oamDmaPause then .dmaStall
  else .runInstr

/-! ## ROM header decoding, from nes/rom.py `ROM.decode_header` -/

/-- Failure modes of `decode_header`: the two `NotImplementedError` raises
for NES 2.0 exponent-notation sizes.  (There is no bad-magic failure: the
magic-byte check in the source is commented out.) -/
inductive HeaderDecodeError where
  | unsupportedPrgRomMsbNibble
  | unsupportedChrRomMsbNibble
  deriving DecidableEq

/-- The fields `decode_header` assigns on the ROM object.  Fields that stay
`None` on one of the two format paths are `Option ℕ`. -/
structure HeaderInfo where
  prgRomBytes : ℕ
  chrRomBytes : ℕ
  mirrorPattern : List ℕ
  hasPersistent : Bool
  hasTrainer : Bool
  mirrorIgnore : Bool
  mapperId : ℕ
  nes2 : Bool
  prgRamBytes : Option ℕ
  submapperId : Option ℕ
  prgNvramBytes : Option ℕ
  chrRamBytes : Option ℕ
  chrNvramBytes : Option ℕ
  deriving DecidableEq

/-- Embeds `ROM.decode_header` on a 16-byte header `h` (byte `i` of the
header is `h i`).  The commented-out magic check of the source is absent,
so bytes 0–3 are never read; decoding starts at byte 4.  Mirror patterns:
`MIRROR_HORIZONTAL = [0,0,1,1]`, `MIRROR_VERTICAL = [0,1,0,1]`,
`MIRROR_FOUR_SCREEN = [0,1,2,3]`. -/
def decodeHeader (h : ℕ → ℕ) : Except HeaderDecodeError HeaderInfo :=
  let prgRomBytes := h 4 * 16384
  let chrRomBytes := h 5 * 8192
  let mirrorPattern := if bitLow (h 6) 0 then [0, 0, 1, 1] else [0, 1, 0, 1]
  let hasPersistent := bitHigh (h 6) 1
  let hasTrainer := bitHigh (h 6) 2
  let mirrorIgnore := bitHigh (h 6) 3
  let mirrorPattern := if mirrorIgnore then [0, 1, 2, 3] else mirrorPattern
  let mapperId := upperNibble (h 7) * 16 + upperNibble (h 6)
  let nes2 := decide (0 < h 7 &&& 0b00001100)
  if ¬nes2 then
    .ok { prgRomBytes, chrRomBytes, mirrorPattern, hasPersistent, hasTrainer,
          mirrorIgnore, mapperId, nes2 := false,
          prgRamBytes := some (max 1 (h 8) * 8192),
          submapperId := none, prgNvramBytes := none,
          chrRamBytes := none, chrNvramBytes := none }
  else
    let mapperId := mapperId + lowerNibble (h 8) * 256
    let submapperId := upperNibble (h 8)
    if lowerNibble (h 9) = 0xF then .error .unsupportedPrgRomMsbNibble
    else if upperNibble (h 9) = 0xF then .error .unsupportedChrRomMsbNibble
    else
      .ok { prgRomBytes, chrRomBytes, mirrorPattern, hasPersistent, hasTrainer,
            mirrorIgnore, mapperId, nes2 := true,
            prgRamBytes := some (64 <<< lowerNibble (h 10)),
            submapperId := some submapperId,
            prgNvramBytes := some (64 <<< upperNibble (h 10)),
            chrRamBytes := some (64 <<< lowerNibble (h 11)),
            chrNvramBytes := some (64 <<< upperNibble (h 11)) }

/-- Whether a decode succeeded. -/
def headerDecodeOk (r : Except HeaderDecodeError HeaderInfo) : Bool :=
  match r with
  | .ok _ => true
  | .error _ => false

/-! ## Concrete power-up states, from the constructors -/

/-- A mapper-0 cartridge as built by `NESCart0.__init__` with all-zero
32 kB PRG ROM data, no CHR data (so an 8 kB zeroed CHR RAM), the default
8 kB cartridge RAM and the default horizontal mirror pattern
`(0, 0, 1, 1)`. -/
def blankCart : NESCart0 where
  ram := fun _ => 0
  ramLen := 8192
  prgRom := fun _ => 0
  prgRomLen := 32768
  chrMem := fun _ => 0
  chrMemLen := 8192
  prgStartAddr := 0x8000
  nametableMirrorPattern := [0, 0, 1, 1]

/-- VRAM as built by `NESVRAM.__init__` on a cartridge: zeroed nametables
and palette RAM, mirror pattern taken from the cartridge. -/
def powerUpVram (c : NESCart0) : NESVRAM where
  cart := c
  nametables := fun _ => 0
  paletteRam := fun _ => 0
  nametableMirrorPattern := c.nametableMirrorPattern

/-- PPU state as built by `NESPPU.__init__`: all registers and latches
zero, all flags clear, zeroed OAM, cycle counter zero. -/
def powerUpPPU (c : NESCart0) : NESPPU where
  ppuCtrl := 0
  ppuMask := 0
  oamAddr := 0
  ppuScrollX := 0
  ppuScrollY := 0
  ppuAddr := 0
  ppuByteLatch := 0
  ppuDataBuffer := 0
  ioLatch := 0
  inVblank := false
  spriteZeroHit := false
  spriteOverflow := false
  cyclesSinceReset := 0
  oam := fun _ => 0
  vram := powerUpVram c

/-- A controller as built by `ControllerBase.__init__`: no buttons
pressed, serial position 0, strobe low. -/
def initController (active : Bool) : Controller where
  isPressed := fun _ => 0
  currentBit := 0
  strobe := 0
  active := active

/-- The memory map as wired by `NES.__init__` around `blankCart`: zeroed
internal RAM, power-up PPU, an active controller 1 and an inactive
controller 2, all interrupt lines clear. -/
def powerUpNES : NESMappedRAM where
  ram := fun _ => 0
  ppu := powerUpPPU blankCart
  cart := blankCart
  controller1 := initController true
  controller2 := initController false
  interruptListener := { nmi := false, irq := false, oamDmaPause := false }

/-! ## Arithmetic helper lemmas -/

/-- Masking with `0xFF` is reduction modulo 256. -/
theorem land255_eq_mod (x : ℕ) : x &&& 255 = x % 256 := by
  have h := Nat.and_pow_two_sub_one_eq_mod x 8
  norm_num at h
  exact h

set_option maxRecDepth 8192 in
/-- For a 9-bit value, bit 7 is set exactly when the low byte is at least
128. -/
theorem land128_pos_iff : ∀ x < 512, ((0 < x &&& 128) ↔ 128 ≤ x % 256) := by decide

set_option maxRecDepth 8192 in
/-- For a byte, bit 7 is set exactly when the value is at least 128. -/
theorem land128_pos_iff_of_byte : ∀ x < 256, ((0 < x &&& 128) ↔ 128 ≤ x) := by decide

/-! ## Claim C5 -/

/-- The blank cartridge after a CPU write of `0xAB` into the PRG ROM
region at `0x8000`. -/
def c5CartAfterWrite : NESCart0 := blankCart.write 0x8000 0xAB

/-- C5: the claim says a CPU write into the PRG-ROM region of a mapper-0
cartridge is silently discarded, leaving the ROM unchanged.  In the source
it is not: `NESCart0.write` assigns into `prg_rom`, so after writing
`0xAB` to `0x8000` the ROM byte (originally `0x00`) reads back as `0xAB`.
This contradicts the comment directly above the assignment (a write
"should not be able to write to ROM, write here has no effect"). -/
theorem cart0RomWrite_mutatesRom :
    blankCart.read 0x8000 = 0x00 ∧
    c5CartAfterWrite.read 0x8000 = 0xAB ∧
    c5CartAfterWrite.prgRom 0 = 0xAB ∧
    c5CartAfterWrite.read 0x8000 ≠ blankCart.read 0x8000 := by
  decide

/-! ## Claim C1 -/

/-- The power-up memory map after the CPU writes `0xAB` to address
`0x0000` (the write succeeds, hence the `Option`). -/
def c1AfterRamWrite : Option NESMappedRAM := powerUpNES.write 0x0000 0xAB

/-- The same state after a further CPU write of `0x77` to address
`0x0800`, which the claim expects to land in the same RAM cell. -/
def c1AfterMirrorWrite : Option NESMappedRAM :=
  c1AfterRamWrite.bind fun s => s.write 0x0800 0x77

/-- C1: the claim says addresses `a` and `a + 0x0800` (and `a + 0x1000`,
`a + 0x1800`) dispatch to the same internal-RAM cell.  In the source they
do not: `RAM_END = 0x0800`, so only addresses below `0x0800` reach the RAM
branch and everything in `[0x0800, 0x4000)` is dispatched to the PPU
registers.  Concretely, after writing `0xAB` to `0x0000`, reads of
`0x0800`, `0x1000` and `0x1800` return the PPU I/O latch (0), not `0xAB`;
and a write to `0x0800` lands in the PPU I/O latch while RAM cell 0 keeps
`0xAB`. -/
theorem ramMirror_dispatchesToPpu :
    (c1AfterRamWrite.bind fun s => s.readValue 0x0000) = some 0xAB ∧
    (c1AfterRamWrite.bind fun s => s.readValue 0x0800) = some 0 ∧
    (c1AfterRamWrite.bind fun s => s.readValue 0x1000) = some 0 ∧
    (c1AfterRamWrite.bind fun s => s.readValue 0x1800) = some 0 ∧
    (c1AfterRamWrite.bind fun s => s.readValue 0x0800)
      ≠ (c1AfterRamWrite.bind fun s => s.readValue 0x0000) ∧
    (c1AfterMirrorWrite.map fun s => s.ram 0) = some 0xAB ∧
    (c1AfterMirrorWrite.map fun s => s.ppu.ioLatch) = some 0x77 := by
  decide

/-! ## Claim C4 -/

/-- A power-up PPU whose cycle counter has reached 30000 PPU cycles,
i.e. 10000 CPU cycles of runner progress (the runner advances the PPU by
`ppuCyclesPerCpuCycle = 3` PPU cycles per CPU cycle). -/
def c4PpuAt30000 : NESPPU := { powerUpPPU blankCart with cyclesSinceReset := 30000 }

/-- The same PPU one cycle short of the gate constant. -/
def c4PpuAt29657 : NESPPU := { powerUpPPU blankCart with cyclesSinceReset := 29657 }

/-- C4: the claim says PPUCTRL writes in the first ≈29,658 CPU cycles are
ignored.  The gate in `write_register` compares 29,658 against
`cycles_since_reset`, which counts PPU cycles (it is incremented once per
iteration of `run_cycles`, and the runner calls `run_cycles(cpu_cycles *
3)`).  So a write with the PPU counter at 30,000 — issued only
`30000 / 3 = 10000` CPU cycles after reset, well inside the claimed
warm-up window — already takes effect, while a write at PPU cycle 29,657
is still ignored. -/
theorem ppuCtrlWarmup_gateIsInPpuCycles :
    ((c4PpuAt30000.writeRegister 0 0x80).map fun q => q.1.ppuCtrl) = some 0x80 ∧
    ((c4PpuAt29657.writeRegister 0 0x80).map fun q => q.1.ppuCtrl) = some 0 ∧
    30000 / ppuCyclesPerCpuCycle < 29658 := by
  decide

/-! ## Claim C2 -/

/-- Interrupt-bus state with only the IRQ line active. -/
def c2IrqOnly : InterruptListener := { nmi := false, irq := true, oamDmaPause := false }

/-- C2 counterexample: with an IRQ pending, no NMI pending and the CPU I
flag clear, the source dispatch raises `NotImplementedError` where the
specified loop would service the IRQ. -/
theorem stepDispatch_irq_neq_spec :
    stepAction c2IrqOnly = .notImplementedError ∧
    specStepAction c2IrqOnly false = .serviceIrq ∧
    stepAction c2IrqOnly ≠ specStepAction c2IrqOnly false := by
  decide

/-- C2 amended: in every runner iteration in which the interrupt bus has
an IRQ pending and no NMI pending, `NES.step` raises
`NotImplementedError("IRQ is not implemented")` — regardless of the CPU I
flag — instead of running the CPU IRQ service sequence. -/
theorem stepDispatch_irq_raisesNotImplemented
    (il : InterruptListener) (hirq : il.irq = true) (hnmi : il.nmi = false) :
    stepAction il = .notImplementedError := by
  simp [stepAction, InterruptListener.anyActive, hirq, hnmi]

/-- Witness for the amended C2 theorem at the concrete interrupt state
with only IRQ active. -/
theorem stepDispatch_irq_raisesNotImplemented_witness :
    c2IrqOnly.irq = true ∧ c2IrqOnly.nmi = false ∧
    stepAction c2IrqOnly = .notImplementedError :=
  ⟨rfl, rfl, stepDispatch_irq_raisesNotImplemented c2IrqOnly rfl rfl⟩

/-! ## Claim C6 -/

/-- A 16-byte header whose magic bytes are `XXXX` instead of `NES\x1A`,
declaring one 16 kB PRG bank and one 8 kB CHR bank in iNES v1 format. -/
def c6BadMagicHeader : ℕ → ℕ := fun i =>
  if i = 0 then 0x58 else if i = 1 then 0x58 else if i = 2 then 0x58
  else if i = 3 then 0x58 else if i = 4 then 1 else if i = 5 then 1 else 0

/-- The same header with the proper `NES\x1A` magic bytes. -/
def c6GoodMagicHeader : ℕ → ℕ := fun i =>
  if i = 0 then 0x4E else if i = 1 then 0x45 else if i = 2 then 0x53
  else if i = 3 then 0x1A else c6BadMagicHeader i

/-- A NES 2.0 header (byte 7 flags NES 2.0) whose PRG-ROM-size MSB nibble
in byte 9 is `0xF` (exponent notation). -/
def c6Nes2ExponentHeader : ℕ → ℕ := fun i =>
  if i = 7 then 0b00001000 else if i = 9 then 0x0F else 0

/-- C6 counterexample: a header whose first four bytes are not the magic
bytes decodes successfully — `decode_header` does not fail with a
bad-header error, because the magic check in the source is commented
out. -/
theorem decodeHeader_acceptsBadMagic :
    c6BadMagicHeader 0 ≠ 0x4E ∧
    headerDecodeOk (decodeHeader c6BadMagicHeader) = true := by
  decide

/-- C6 amended: the header decoder performs no magic-byte validation —
its result depends only on bytes 4 and up, so any first four bytes decode
exactly as the proper magic would — while a NES 2.0 header whose
PRG_ROM_SIZE MSB nibble is `0xF` does fail, with the
`NotImplementedError` for exponent-notation sizes. -/
theorem decodeHeader_ignoresMagic_failsOnExponentPrg :
    (∀ h g : ℕ → ℕ, (∀ i, 4 ≤ i → h i = g i) → decodeHeader h = decodeHeader g) ∧
    (∀ h : ℕ → ℕ, 0 < h 7 &&& 0b00001100 → lowerNibble (h 9) = 0xF →
      decodeHeader h = .error .unsupportedPrgRomMsbNibble) := by
  constructor
  · intro h g hg
    have e4 := hg 4 (by norm_num)
    have e5 := hg 5 (by norm_num)
    have e6 := hg 6 (by norm_num)
    have e7 := hg 7 (by norm_num)
    have e8 := hg 8 (by norm_num)
    have e9 := hg 9 (by norm_num)
    have e10 := hg 10 (by norm_num)
    have e11 := hg 11 (by norm_num)
    simp only [decodeHeader, e4, e5, e6, e7, e8, e9, e10, e11]
  · intro h h7 h9
    have hnes2 : decide (0 < h 7 &&& 0b00001100) = true := decide_eq_true h7
    simp only [decodeHeader, hnes2, h9, Bool.not_true, Bool.false_eq_true, if_false, if_true]
    simp

/-- Witness for the amended C6 theorem: the good-magic and bad-magic
headers agree from byte 4 on and decode identically, and the concrete
NES 2.0 exponent-notation header fails with the unsupported-PRG error. -/
theorem decodeHeader_ignoresMagic_failsOnExponentPrg_witness :
    decodeHeader c6GoodMagicHeader = decodeHeader c6BadMagicHeader ∧
    decodeHeader c6Nes2ExponentHeader = .error .unsupportedPrgRomMsbNibble :=
  ⟨decodeHeader_ignoresMagic_failsOnExponentPrg.1 _ _ (fun i hi => by
      simp only [c6GoodMagicHeader]
      rw [if_neg (by omega), if_neg (by omega), if_neg (by omega), if_neg (by omega)]),
   decodeHeader_ignoresMagic_failsOnExponentPrg.2 _ (by decide) (by decide)⟩

/-! ## Claim C3 -/

/-- Memory-map state for the DMA comparison: internal RAM holds the byte
pattern `i % 256` (so page 2, addresses `$0200..$02FF`, holds
`0x00..0xFF`), and OAMADDR is 1. -/
def c3Start : NESMappedRAM :=
  { powerUpNES with
      ram := fun i => i % 256,
      ppu := { powerUpNES.ppu with oamAddr := 1 } }

/-- The state after the CPU writes page number `0x02` to `$4014`,
triggering `run_oam_dma` (all reads are RAM reads, so it succeeds). -/
def c3AfterDma : Option NESMappedRAM := c3Start.write 0x4014 0x02

/-- The reference program of the claim: `n` sequential OAMDATA writes
(CPU writes to `$2004`) of the bytes read from `$PP00`, `$PP01`, ...,
using the same embedded memory map. -/
def seqOamdataWrites (s : NESMappedRAM) (page : ℕ) : ℕ → Option NESMappedRAM
  | 0 => some s
  | n + 1 =>
    match seqOamdataWrites s page n with
    | none => none
    | some s1 =>
      match s1.read ((page <<< 8) + n) with
      | none => none
      | some (v, s2) => s2.write 0x2004 v

/-- The state after 256 sequential OAMDATA writes of `$0200..$02FF`
starting from the same OAMADDR. -/
def c3AfterSeq : Option NESMappedRAM := seqOamdataWrites c3Start 2 256

set_option maxRecDepth 1000000 in
/-- C3: the claim says OAM DMA of page `P` produces
`OAM[(OAMADDR + i) mod 256] = RAM[$PP00 + i]`, the same contents as 256
sequential OAMDATA writes.  With OAMADDR = 1 this fails: the wrapped tail
of the copy re-reads the start of the page instead of its end
(`run_oam_dma` fills `data_block[0:oam_addr]` from `page << 8` rather
than from `page << 8 + 256 - oam_addr`), so OAM byte 0 receives
`RAM[$0200] = 0x00` where the sequential writes put `RAM[$02FF] = 0xFF`
there.  This contradicts the comment in `run_oam_dma` ("done in two parts
to correctly account for wrapping at page end") and the round-trip law of
the specification. -/
theorem oamDma_wrapDiffersFromSeqWrites :
    c3Start.readValue 0x02FF = some 0xFF ∧
    (c3AfterSeq.map fun s => s.ppu.oam 0) = some 0xFF ∧
    (c3AfterDma.map fun s => s.ppu.oam 0) = some 0x00 ∧
    (c3AfterDma.map fun s => s.ppu.oam 0) ≠ (c3AfterSeq.map fun s => s.ppu.oam 0) ∧
    (c3AfterDma.map fun s => s.ppu.oam 1) = some 0x00 ∧
    (c3AfterSeq.map fun s => s.ppu.oam 1) = some 0x00 := by
  decide

/-! ## Claim C7 -/

/-- Below `$3000`, a VRAM read always succeeds when the mirror pattern is
the 4-entry tuple every cartridge supplies: CHR accesses are reduced
modulo the CHR size, and nametable pages 0–3 are inside the tuple. -/
theorem vramRead_isSome_below3000 (v : NESVRAM) (address : ℕ)
    (hlen : v.nametableMirrorPattern.length = 4) (h : address < 0x3000) :
    ∃ b, v.read address = some b := by
  unfold NESVRAM.read NESVRAM.decodeAddress
  by_cases h2 : address < 0x2000
  · rw [if_pos h2]
    exact ⟨_, rfl⟩
  · rw [if_neg h2, if_pos (by omega),
      List.get?_eq_get (l := v.nametableMirrorPattern)
        (n := (address - 0x2000) / 1024) (by omega)]
    exact ⟨_, rfl⟩

/-- In `[0x3000, 0x3F00)`, a VRAM access computes nametable page 4–7 and
the indexing of the 4-entry mirror tuple raises `IndexError`. -/
theorem vramRead_raisesInMirrorGap (v : NESVRAM) (address : ℕ)
    (hlen : v.nametableMirrorPattern.length = 4)
    (h1 : 0x3000 ≤ address) (h2 : address < 0x3F00) :
    v.read address = none := by
  unfold NESVRAM.read NESVRAM.decodeAddress
  rw [if_neg (by omega), if_pos h2,
    List.get?_len_le (l := v.nametableMirrorPattern)
      (n := (address - 0x2000) / 1024) (by omega)]

/-- A power-up PPU pointing PPUDATA at `$3000`, inside the claimed
below-`$3F00` buffered region. -/
def c7CrashPpu : NESPPU := { powerUpPPU blankCart with ppuAddr := 0x3000 }

/-- C7 counterexample: a PPUDATA read with the VRAM address `$3000` —
below `$3F00`, so the claim says it returns the previous buffer contents
and refills the buffer — instead raises `IndexError`: `decode_address`
computes nametable page 4 and indexes the 4-entry mirror tuple, so the
read aborts and returns nothing at all. -/
theorem ppudataRead_indexErrorInGap :
    c7CrashPpu.ppuAddr < 0x3F00 ∧
    c7CrashPpu.vram.read c7CrashPpu.ppuAddr = none ∧
    (c7CrashPpu.readRegister 7).isSome = false ∧
    ((c7CrashPpu.readRegister 7).map Prod.fst) ≠ some c7CrashPpu.ppuDataBuffer := by
  decide

/-- C7 amended: on a PPU whose mirror pattern is the 4-entry cartridge
tuple, a PPUDATA read with the VRAM address below `$3000` returns the
previous read-buffer contents, refills the buffer from the current
address and increments the VRAM address by 1 or 32 per PPUCTRL bit 2; a
read with the address in `[$3000, $3F00)` raises `IndexError` (the
4-entry nametable mirror tuple is indexed with page 4–7) and returns
nothing; a read with the address in `$3F00`–`$3FFF` returns the byte at
the address immediately — and that address decodes to palette RAM — while
the buffer is refilled from `address - 0x1000`, which decodes to the
nametables, and the VRAM address increments by 1 or 32 likewise. -/
theorem ppudataRead_buffering (p : NESPPU)
    (hlen : p.vram.nametableMirrorPattern.length = 4) (hlt : p.ppuAddr < 0x4000) :
    (p.ppuAddr < 0x3000 →
      ((p.readRegister 7).map Prod.fst) = some p.ppuDataBuffer ∧
      ((p.readRegister 7).map fun q => q.2.ppuDataBuffer) = p.vram.read p.ppuAddr ∧
      ((p.readRegister 7).map fun q => q.2.ppuAddr)
        = some (p.ppuAddr + (if p.ppuCtrl &&& 0b00000100 = 0 then 1 else 32))) ∧
    (0x3000 ≤ p.ppuAddr → p.ppuAddr < 0x3F00 →
      (p.readRegister 7).isSome = false) ∧
    (0x3F00 ≤ p.ppuAddr →
      ((p.readRegister 7).map Prod.fst) = p.vram.read p.ppuAddr ∧
      ((p.readRegister 7).map fun q => q.2.ppuDataBuffer)
        = p.vram.read (p.ppuAddr - 0x1000) ∧
      ((p.readRegister 7).map fun q => q.2.ppuAddr)
        = some (p.ppuAddr + (if p.ppuCtrl &&& 0b00000100 = 0 then 1 else 32)) ∧
      ((p.vram.decodeAddress p.ppuAddr).map Prod.fst) = some .paletteRam ∧
      ((p.vram.decodeAddress (p.ppuAddr - 0x1000)).map Prod.fst) = some .nametables) := by
  refine ⟨fun h30 => ?_, fun hge hmid => ?_, fun hpal => ?_⟩
  · obtain ⟨b, hb⟩ := vramRead_isSome_below3000 p.vram p.ppuAddr hlen h30
    have h3F : p.ppuAddr < 0x3F00 := by omega
    refine ⟨?_, ?_, ?_⟩ <;>
      simp [NESPPU.readRegister, NESPPU.incrementVramAddress, h3F, hb]
  · have hnone := vramRead_raisesInMirrorGap p.vram p.ppuAddr hlen hge hmid
    simp [NESPPU.readRegister, hnone, hmid]
  · have hnlt : ¬p.ppuAddr < 0x3F00 := by omega
    have hd1 : ∃ i, p.vram.decodeAddress p.ppuAddr = some (.paletteRam, i) := by
      unfold NESVRAM.decodeAddress
      rw [if_neg (by omega), if_neg hnlt]
      exact ⟨_, rfl⟩
    obtain ⟨i1, hi1⟩ := hd1
    have hb1 : p.vram.read p.ppuAddr = some (p.vram.paletteRam i1) := by
      unfold NESVRAM.read
      rw [hi1]
    have hd2 : ∃ i, p.vram.decodeAddress (p.ppuAddr - 0x1000) = some (.nametables, i) := by
      unfold NESVRAM.decodeAddress
      rw [if_neg (by omega), if_pos (by omega),
        List.get?_eq_get (l := p.vram.nametableMirrorPattern)
          (n := (p.ppuAddr - 0x1000 - 0x2000) / 1024) (by omega)]
      exact ⟨_, rfl⟩
    obtain ⟨i2, hi2⟩ := hd2
    have hb2 : p.vram.read (p.ppuAddr - 0x1000) = some (p.vram.nametables i2) := by
      unfold NESVRAM.read
      rw [hi2]
    refine ⟨?_, ?_, ?_, ?_, ?_⟩ <;>
      simp [NESPPU.readRegister, NESPPU.incrementVramAddress, hnlt, hb1, hb2, hi1, hi2]

/-- A concrete PPU pointing PPUDATA at the palette address `$3F00`, with a
stale buffer byte. -/
def c7Ppu : NESPPU :=
  { powerUpPPU blankCart with ppuAddr := 0x3F00, ppuDataBuffer := 0x21 }

/-- Witness for the amended C7 at `ppuAddr = 0x3F00` on the 4-entry
horizontal mirror pattern. -/
theorem ppudataRead_buffering_witness :
    c7Ppu.vram.nametableMirrorPattern.length = 4 ∧
    c7Ppu.ppuAddr < 0x4000 ∧
    ((c7Ppu.ppuAddr < 0x3000 →
      ((c7Ppu.readRegister 7).map Prod.fst) = some c7Ppu.ppuDataBuffer ∧
      ((c7Ppu.readRegister 7).map fun q => q.2.ppuDataBuffer)
        = c7Ppu.vram.read c7Ppu.ppuAddr ∧
      ((c7Ppu.readRegister 7).map fun q => q.2.ppuAddr)
        = some (c7Ppu.ppuAddr + (if c7Ppu.ppuCtrl &&& 0b00000100 = 0 then 1 else 32))) ∧
    (0x3000 ≤ c7Ppu.ppuAddr → c7Ppu.ppuAddr < 0x3F00 →
      (c7Ppu.readRegister 7).isSome = false) ∧
    (0x3F00 ≤ c7Ppu.ppuAddr →
      ((c7Ppu.readRegister 7).map Prod.fst) = c7Ppu.vram.read c7Ppu.ppuAddr ∧
      ((c7Ppu.readRegister 7).map fun q => q.2.ppuDataBuffer)
        = c7Ppu.vram.read (c7Ppu.ppuAddr - 0x1000) ∧
      ((c7Ppu.readRegister 7).map fun q => q.2.ppuAddr)
        = some (c7Ppu.ppuAddr + (if c7Ppu.ppuCtrl &&& 0b00000100 = 0 then 1 else 32)) ∧
      ((c7Ppu.vram.decodeAddress c7Ppu.ppuAddr).map Prod.fst) = some .paletteRam ∧
      ((c7Ppu.vram.decodeAddress (c7Ppu.ppuAddr - 0x1000)).map Prod.fst)
        = some .nametables)) :=
  ⟨rfl, by decide, ppudataRead_buffering c7Ppu rfl (by decide)⟩

/-! ## Claim C8 -/

/-- A CPU in the state of the specification scenario: A = `0x50`, carry
clear, connected to the power-up memory map. -/
def c8Cpu : MOS6502 where
  A := 0x50
  X := 0
  Y := 0
  PC := 0xC000
  SP := 0xFD
  flagN := false
  flagV := false
  flagD := false
  flagI := true
  flagZ := false
  flagC := false
  cyclesSinceReset := 7
  memory := powerUpNES

/-- C8: in binary mode, ADC with operand `v` and incoming carry sets C
exactly when the 9-bit sum exceeds 255, sets Z and N from the low 8 bits
of the sum, sets V exactly when the operand sign bits agree with each
other and differ from the sign bit of the 8-bit result, and stores the
low 8 bits in A; in particular `A = 0x50, C = 0` with `ADC #$50` yields
`A = 0xA0, N = 1, V = 1, Z = 0, C = 0`. -/
theorem adcBinary_flags :
    (∀ (c : MOS6502) (v : ℕ), c.A < 256 → v < 256 →
      ((c.adc v true).map MOS6502.A
        = some ((c.A + v + (if c.flagC then 1 else 0)) % 256)) ∧
      ((c.adc v true).map MOS6502.flagC = some true
        ↔ 255 < c.A + v + (if c.flagC then 1 else 0)) ∧
      ((c.adc v true).map MOS6502.flagZ = some true
        ↔ (c.A + v + (if c.flagC then 1 else 0)) % 256 = 0) ∧
      ((c.adc v true).map MOS6502.flagN = some true
        ↔ 128 ≤ (c.A + v + (if c.flagC then 1 else 0)) % 256) ∧
      ((c.adc v true).map MOS6502.flagV = some true ↔
        ((128 ≤ c.A ↔ 128 ≤ v) ∧
          ¬(128 ≤ c.A ↔ 128 ≤ (c.A + v + (if c.flagC then 1 else 0)) % 256)))) ∧
    ((c8Cpu.adc 0x50 true).map MOS6502.A = some 0xA0 ∧
      (c8Cpu.adc 0x50 true).map MOS6502.flagN = some true ∧
      (c8Cpu.adc 0x50 true).map MOS6502.flagV = some true ∧
      (c8Cpu.adc 0x50 true).map MOS6502.flagZ = some false ∧
      (c8Cpu.adc 0x50 true).map MOS6502.flagC = some false) := by
  constructor
  · intro c v hA hv
    have hsum : c.A + v + (if c.flagC then 1 else 0) < 512 := by split <;> omega
    refine ⟨?_, ?_, ?_, ?_, ?_⟩
    · exact congrArg some (land255_eq_mod _)
    · rw [show (c.adc v true).map MOS6502.flagC
          = some (decide (255 < c.A + v + (if c.flagC then 1 else 0))) from rfl]
      simp
    · rw [show (c.adc v true).map MOS6502.flagZ
          = some (decide ((c.A + v + (if c.flagC then 1 else 0)) &&& 0xFF = 0)) from rfl]
      simp [land255_eq_mod]
    · rw [show (c.adc v true).map MOS6502.flagN
          = some (decide (0 < (c.A + v + (if c.flagC then 1 else 0)) &&& 0b10000000))
          from rfl]
      simp only [Option.some.injEq, decide_eq_true_iff]
      exact land128_pos_iff _ hsum
    · rw [show (c.adc v true).map MOS6502.flagV
          = some ((negBit c.A == negBit v)
              && (negBit c.A != negBit (c.A + v + (if c.flagC then 1 else 0)))) from rfl]
      simp only [negBit, Option.some.injEq, Bool.and_eq_true, beq_iff_eq, bne_iff_ne,
        ne_eq, decide_eq_decide, decide_eq_true_iff]
      rw [land128_pos_iff_of_byte c.A hA, land128_pos_iff_of_byte v hv,
        land128_pos_iff _ hsum]
  · decide

/-- Witness for the universally quantified part of C8, at the scenario
input `A = 0x50, C = 0, v = 0x50`. -/
theorem adcBinary_flags_witness :
    c8Cpu.A < 256 ∧ 0x50 < 256 ∧
    (c8Cpu.adc 0x50 true).map MOS6502.A
      = some ((c8Cpu.A + 0x50 + (if c8Cpu.flagC then 1 else 0)) % 256) :=
  ⟨by decide, by decide, (adcBinary_flags.1 c8Cpu 0x50 (by decide) (by decide)).1⟩

/-! ## Claim C9 -/

/-- C9: an OAMDATA write stores the (byte-masked) value at the current
OAMADDR and then increments OAMADDR modulo 256, while an OAMDATA read
returns the byte at the current OAMADDR and changes neither OAMADDR nor
the OAM. -/
theorem oamdataWriteRead (p : NESPPU) (v : ℕ) :
    ((p.writeRegister 4 v).map fun q => q.1.oam)
      = some (upd p.oam p.oamAddr (v &&& 0xFF)) ∧
    ((p.writeRegister 4 v).map fun q => q.1.oamAddr) = some ((p.oamAddr + 1) % 256) ∧
    ((p.readRegister 4).map Prod.fst) = some (p.oam p.oamAddr) ∧
    ((p.readRegister 4).map fun q => q.2.oamAddr) = some p.oamAddr ∧
    ((p.readRegister 4).map fun q => q.2.oam) = some p.oam := by
  refine ⟨rfl, ?_, rfl, rfl, rfl⟩
  exact congrArg some (land255_eq_mod _)

/-! ## Claim C10 -/

set_option maxRecDepth 8192 in
/-- Bit structure of the value assembled by a PPUSTATUS read: for any
flag combination and any byte-sized latch, bits 1–3 are clear, bits 5–7
are the three flags, bits 0 and 4 come from the latch, and the open-bus
mask `0x00011111` (a hex literal, 69905) keeps exactly bits 0 and 4 of a
byte. -/
theorem ppuStatusValueBits :
    ∀ a b c : Bool, ∀ L, L < 256 →
      (0x00011111 &&& L = L &&& 0b00010001) ∧
      (Nat.testBit ((if a then 0b10000000 else 0) + (if b then 0b01000000 else 0)
          + (if c then 0b00100000 else 0) + (0x00011111 &&& L)) 1 = false) ∧
      (Nat.testBit ((if a then 0b10000000 else 0) + (if b then 0b01000000 else 0)
          + (if c then 0b00100000 else 0) + (0x00011111 &&& L)) 2 = false) ∧
      (Nat.testBit ((if a then 0b10000000 else 0) + (if b then 0b01000000 else 0)
          + (if c then 0b00100000 else 0) + (0x00011111 &&& L)) 3 = false) ∧
      (Nat.testBit ((if a then 0b10000000 else 0) + (if b then 0b01000000 else 0)
          + (if c then 0b00100000 else 0) + (0x00011111 &&& L)) 7 = a) ∧
      (Nat.testBit ((if a then 0b10000000 else 0) + (if b then 0b01000000 else 0)
          + (if c then 0b00100000 else 0) + (0x00011111 &&& L)) 6 = b) ∧
      (Nat.testBit ((if a then 0b10000000 else 0) + (if b then 0b01000000 else 0)
          + (if c then 0b00100000 else 0) + (0x00011111 &&& L)) 5 = c) ∧
      (Nat.testBit ((if a then 0b10000000 else 0) + (if b then 0b01000000 else 0)
          + (if c then 0b00100000 else 0) + (0x00011111 &&& L)) 4 = Nat.testBit L 4) ∧
      (Nat.testBit ((if a then 0b10000000 else 0) + (if b then 0b01000000 else 0)
          + (if c then 0b00100000 else 0) + (0x00011111 &&& L)) 0 = Nat.testBit L 0) := by
  decide

/-- C10: on every PPUSTATUS read with a byte-sized I/O latch, bits 1, 2
and 3 of the returned value are zero; the three status flags occupy bits
7, 6 and 5; and the open-bus contribution is the latch masked with the
hex literal `0x00011111`, which keeps only bits 0 and 4 of the latch. -/
theorem ppuStatusRead_lowBits (p : NESPPU) (hL : p.ioLatch < 256) :
    (0x00011111 &&& p.ioLatch = p.ioLatch &&& 0b00010001) ∧
    ((p.readRegister 2).map fun q => Nat.testBit q.1 1) = some false ∧
    ((p.readRegister 2).map fun q => Nat.testBit q.1 2) = some false ∧
    ((p.readRegister 2).map fun q => Nat.testBit q.1 3) = some false ∧
    ((p.readRegister 2).map fun q => Nat.testBit q.1 7) = some p.inVblank ∧
    ((p.readRegister 2).map fun q => Nat.testBit q.1 6) = some p.spriteZeroHit ∧
    ((p.readRegister 2).map fun q => Nat.testBit q.1 5) = some p.spriteOverflow ∧
    ((p.readRegister 2).map fun q => Nat.testBit q.1 4) = some (Nat.testBit p.ioLatch 4) ∧
    ((p.readRegister 2).map fun q => Nat.testBit q.1 0) = some (Nat.testBit p.ioLatch 0) := by
  have H := ppuStatusValueBits p.inVblank p.spriteZeroHit p.spriteOverflow p.ioLatch hL
  exact ⟨H.1, congrArg some H.2.1, congrArg some H.2.2.1, congrArg some H.2.2.2.1,
    congrArg some H.2.2.2.2.1, congrArg some H.2.2.2.2.2.1,
    congrArg some H.2.2.2.2.2.2.1, congrArg some H.2.2.2.2.2.2.2.1,
    congrArg some H.2.2.2.2.2.2.2.2⟩

/-- A concrete PPU in vblank with the I/O latch full of ones. -/
def c10Ppu : NESPPU :=
  { powerUpPPU blankCart with ioLatch := 0xFF, inVblank := true }

/-- Witness for C10 at the concrete PPU with latch `0xFF` in vblank. -/
theorem ppuStatusRead_lowBits_witness :
    c10Ppu.ioLatch < 256 ∧
    ((0x00011111 &&& c10Ppu.ioLatch = c10Ppu.ioLatch &&& 0b00010001) ∧
    ((c10Ppu.readRegister 2).map fun q => Nat.testBit q.1 1) = some false ∧
    ((c10Ppu.readRegister 2).map fun q => Nat.testBit q.1 2) = some false ∧
    ((c10Ppu.readRegister 2).map fun q => Nat.testBit q.1 3) = some false ∧
    ((c10Ppu.readRegister 2).map fun q => Nat.testBit q.1 7) = some c10Ppu.inVblank ∧
    ((c10Ppu.readRegister 2).map fun q => Nat.testBit q.1 6) = some c10Ppu.spriteZeroHit ∧
    ((c10Ppu.readRegister 2).map fun q => Nat.testBit q.1 5) = some c10Ppu.spriteOverflow ∧
    ((c10Ppu.readRegister 2).map fun q => Nat.testBit q.1 4)
      = some (Nat.testBit c10Ppu.ioLatch 4) ∧
    ((c10Ppu.readRegister 2).map fun q => Nat.testBit q.1 0)
      = some (Nat.testBit c10Ppu.ioLatch 0)) :=
  ⟨by decide, ppuStatusRead_lowBits c10Ppu (by decide)⟩

end NesEmu
